import Mathlib

set_option autoImplicit false

/-!
Verification development for the keyboard-bridge client and its wire
protocol.  The definitions below are shallow embeddings of the TypeScript
sources (`keyboard-event-capture.ts`, `websocket-client.ts`,
`keyboard-bridge.ts`, `types.ts`); the server-side device engine, whose
sources are not in the repository, is modelled from the specification where
a claim needs it.
-/

namespace KB

/-- `ModifierState` from `types.ts`: the boolean modifier and lock-key
flags. -/
structure ModifierState where
  ctrl : Bool
  alt : Bool
  shift : Bool
  meta : Bool
  altGr : Bool
  capsLock : Bool
  numLock : Bool
  scrollLock : Bool
  deriving DecidableEq

/-- The all-false modifier state: both the field initializer of
`KeyboardEventCapture` and the value installed by `resetModifierState`. -/
def initialModifierState : ModifierState :=
  ⟨false, false, false, false, false, false, false, false⟩

/-- A raw DOM keyboard signal as read by `KeyboardEventCapture`: the native
flags, `keyCode`, `key`, `location` and `repeat` fields, plus the result of
`event.getModifierState?.(lockName)` for each lock key, where `none` means
the query function is unavailable in the host environment. -/
structure RawKeyboardSignal where
  keyCode : Nat
  key : String
  ctrlKey : Bool
  altKey : Bool
  shiftKey : Bool
  metaKey : Bool
  location : Nat
  keyRepeat : Bool
  capsLockQuery : Option Bool
  numLockQuery : Option Bool
  scrollLockQuery : Option Bool
  deriving DecidableEq

/-- `EventCaptureOptions` after the constructor of `KeyboardEventCapture`
has merged in the defaults (`captureComposition: true`,
`captureModifiers: true`, `preventDefault: false`,
`stopPropagation: false`). -/
structure EventCaptureOptions where
  captureComposition : Bool
  captureModifiers : Bool
  preventDefault : Bool
  stopPropagation : Bool
  deriving DecidableEq

/-- The option record produced by `new KeyboardEventCapture({})`. -/
def defaultCaptureOptions : EventCaptureOptions := ⟨true, true, false, false⟩

/-- The `eventType` discriminator of a `KeyboardEvent` in `types.ts`. -/
inductive EventType
  | keydown
  | keyup
  deriving DecidableEq

/-- `KeyboardEvent` from `types.ts` (tag `keyboard_event`): the record
built by `handleKeyDown` / `handleKeyUp`.  Its fields are exactly those of
the source interface; `location` and `keyRepeat` are optional there, and
the `keyup` construction omits `repeat`. -/
structure KeyboardEvent where
  keyCode : Nat
  char : String
  modifiers : ModifierState
  eventType : EventType
  timestamp : Nat
  location : Option Nat
  keyRepeat : Option Bool
  deriving DecidableEq

/-- `CompositionEvent` from `types.ts` (tag `composition_event`): the
record built by the three composition handlers. -/
structure CompositionEvent where
  compositionText : String
  compositionStart : Nat
  compositionEnd : Nat
  modifiers : ModifierState
  timestamp : Nat
  deriving DecidableEq

/-- `event.getModifierState?.(lockName) || false`: the query result when
the function is available, `false` when it is not. -/
def lockQueryOrFalse (q : Option Bool) : Bool := q.getD false

/-- `KeyboardEventCapture.updateModifierState`: returns the tracker state
unchanged when `captureModifiers` is off, otherwise recomputes every flag
from the raw signal.  AltGr is `event.altKey && event.location === 2`. -/
def updateModifierState (opts : EventCaptureOptions) (st : ModifierState)
    (e : RawKeyboardSignal) : ModifierState :=
  if !opts.captureModifiers then st
  else
    { ctrl := e.ctrlKey
      alt := e.altKey
      shift := e.shiftKey
      meta := e.metaKey
      altGr := e.altKey && e.location == 2
      capsLock := lockQueryOrFalse e.capsLockQuery
      numLock := lockQueryOrFalse e.numLockQuery
      scrollLock := lockQueryOrFalse e.scrollLockQuery }

/-- `KeyboardEventCapture.handleKeyDown`, with the `Date.now()` reading
passed in as `now`.  Updates the modifier state, then builds the one
emitted `KeyboardEvent`, whose `modifiers` field is the spread copy
`{ ...this.modifierState }` of the freshly updated state. -/
def handleKeyDown (opts : EventCaptureOptions) (st : ModifierState)
    (e : RawKeyboardSignal) (now : Nat) : ModifierState × KeyboardEvent :=
  let st1 := updateModifierState opts st e
  (st1,
    { keyCode := e.keyCode
      char := e.key
      modifiers := st1
      eventType := EventType.keydown
      timestamp := now
      location := some e.location
      keyRepeat := some e.keyRepeat })

/-- `KeyboardEventCapture.handleKeyUp`: like `handleKeyDown` but tagged
`keyup`, and the source record omits the `repeat` field. -/
def handleKeyUp (opts : EventCaptureOptions) (st : ModifierState)
    (e : RawKeyboardSignal) (now : Nat) : ModifierState × KeyboardEvent :=
  let st1 := updateModifierState opts st e
  (st1,
    { keyCode := e.keyCode
      char := e.key
      modifiers := st1
      eventType := EventType.keyup
      timestamp := now
      location := some e.location
      keyRepeat := none })

/-- The common body of `handleCompositionStart` / `handleCompositionUpdate`
/ `handleCompositionEnd`: all three build the same record from
`event.data`, with `compositionStart` fixed at `0` and `compositionEnd` at
the length of the text, and a spread copy of the current modifier state. -/
def handleComposition (st : ModifierState) (data : String) (now : Nat) :
    CompositionEvent :=
  { compositionText := data
    compositionStart := 0
    compositionEnd := data.length
    modifiers := st
    timestamp := now }

/-- An event handed to one of the two capture callbacks
(`onKeyboardEvent` / `onCompositionEvent`). -/
inductive Emitted
  | key (e : KeyboardEvent)
  | comp (e : CompositionEvent)
  deriving DecidableEq

/-- One raw signal arriving at a started capture, or a call to
`resetModifierState`.  The `now` argument is the `Date.now()` reading at
handling time. -/
inductive CaptureSignal
  | keydown (e : RawKeyboardSignal) (now : Nat)
  | keyup (e : RawKeyboardSignal) (now : Nat)
  | compStart (data : String) (now : Nat)
  | compUpdate (data : String) (now : Nat)
  | compEnd (data : String) (now : Nat)
  | reset
  deriving DecidableEq

/-- Effect of one signal on the tracker state, together with the list of
events it emits.  Composition signals are consumed only when
`captureComposition` is set, because `start()` registers the composition
listeners only under that option; `reset` is `resetModifierState`. -/
def stepOut (opts : EventCaptureOptions) (st : ModifierState) :
    CaptureSignal → ModifierState × List Emitted
  | .keydown e now =>
      let r := handleKeyDown opts st e now
      (r.1, [Emitted.key r.2])
  | .keyup e now =>
      let r := handleKeyUp opts st e now
      (r.1, [Emitted.key r.2])
  | .compStart data now =>
      if opts.captureComposition then
        (st, [Emitted.comp (handleComposition st data now)])
      else (st, [])
  | .compUpdate data now =>
      if opts.captureComposition then
        (st, [Emitted.comp (handleComposition st data now)])
      else (st, [])
  | .compEnd data now =>
      if opts.captureComposition then
        (st, [Emitted.comp (handleComposition st data now)])
      else (st, [])
  | .reset => (initialModifierState, [])

/-- The capture's observable state: the tracker state plus the cumulative
list of events delivered to the callbacks so far. -/
structure CaptureState where
  modifierState : ModifierState
  emitted : List Emitted
  deriving DecidableEq

/-- One signal processed by the started capture: the handler runs and the
events it emits are appended to the delivered list. -/
def captureStep (opts : EventCaptureOptions) (s : CaptureState)
    (sig : CaptureSignal) : CaptureState :=
  let r := stepOut opts s.modifierState sig
  { modifierState := r.1, emitted := s.emitted ++ r.2 }

/-- A whole trace of signals processed in arrival order (the client is
single-threaded, so signals are handled synchronously one by one). -/
def captureRun (opts : EventCaptureOptions) (s : CaptureState) :
    List CaptureSignal → CaptureState
  | [] => s
  | sig :: tr => captureRun opts (captureStep opts s sig) tr

/-- The tracker state after a trace, starting from `st`. -/
def runMod (opts : EventCaptureOptions) (st : ModifierState) :
    List CaptureSignal → ModifierState
  | [] => st
  | sig :: tr => runMod opts (stepOut opts st sig).1 tr

/-- The list of events a trace emits, starting from tracker state `st`. -/
def runOut (opts : EventCaptureOptions) (st : ModifierState) :
    List CaptureSignal → List Emitted
  | [] => []
  | sig :: tr =>
      (stepOut opts st sig).2 ++ runOut opts (stepOut opts st sig).1 tr

/-- `KeyboardEventCapture.getModifierState`: returns a spread copy of the
tracker state, i.e. its current value. -/
def getModifierState (s : CaptureState) : ModifierState := s.modifierState

/-- The number of raw signals in a trace (`reset` is an API call on the
capture, not a raw signal). -/
def signalCount : List CaptureSignal → Nat
  | [] => 0
  | .reset :: tr => signalCount tr
  | .keydown _ _ :: tr => signalCount tr + 1
  | .keyup _ _ :: tr => signalCount tr + 1
  | .compStart _ _ :: tr => signalCount tr + 1
  | .compUpdate _ _ :: tr => signalCount tr + 1
  | .compEnd _ _ :: tr => signalCount tr + 1

/-- The timestamp an emitted event carries. -/
def emittedTimestamp : Emitted → Nat
  | .key e => e.timestamp
  | .comp e => e.timestamp

/-- `KeyboardBridgeOptions` from `types.ts`: the whole configuration
surface of `WebSocketClient` (and of the bridge's transport half). -/
structure KeyboardBridgeOptions where
  url : String
  reconnectInterval : Option Nat
  maxReconnectAttempts : Option Nat
  debug : Option Bool
  deriving DecidableEq

/-- JavaScript defaulting `options.x || d` on an optional numeric option:
an absent value and the falsy `0` both yield the default. -/
def orDefault (o : Option Nat) (d : Nat) : Nat :=
  match o with
  | none => d
  | some 0 => d
  | some n => n

/-- The handshake timeout armed inside `connect()`:
`setTimeout(() => reject(...), 10000)`.  The duration is the literal
`10000`; no field of the options record flows into it. -/
def connectionTimeoutMs (_opts : KeyboardBridgeOptions) : Nat := 10000

/-- Settlement of the promise awaited in `connect()` for one connection
attempt: it resolves (the state becomes connected) only when the
transport's open event fires strictly before the timeout; a transport
error event rejects it, and so does the timeout itself. -/
inductive ConnectSignal
  | openAt (t : Nat)
  | errorAt (t : Nat)
  deriving DecidableEq

/-- Whether the attempt's promise resolves, i.e. `Connecting` resolves to
`Connected`: true exactly when the open event fires within the armed
timeout (the `onerror` assignment rejects on any error). -/
def connectResolves (opts : KeyboardBridgeOptions) (sig : ConnectSignal) :
    Bool :=
  match sig with
  | .openAt t => decide (t < connectionTimeoutMs opts)
  | .errorAt _ => false

/-- The observable state of one `WebSocketClient`: the two connection
flags, the retry counter and its cap, the number of pending reconnect
timers scheduled by `attemptReconnect`, and the number of times the
`onDisconnect` callback has been invoked. -/
structure ClientState where
  isConnecting : Bool
  isConnected : Bool
  reconnectAttempts : Nat
  maxReconnectAttempts : Nat
  pendingTimers : Nat
  notifications : Nat
  deriving DecidableEq

/-- `WebSocketClient.attemptReconnect`: returns at once when the counter
has reached the cap; otherwise increments the counter and schedules one
`connect()` call on a timer. -/
def attemptReconnect (s : ClientState) : ClientState :=
  if s.maxReconnectAttempts ≤ s.reconnectAttempts then s
  else
    { s with
      reconnectAttempts := s.reconnectAttempts + 1
      pendingTimers := s.pendingTimers + 1 }

/-- `WebSocketClient.handleClose`: clears both connection flags, then
reconnects when the close code is not the normal-closure code `1000` and
the counter is below the cap, and otherwise invokes `onDisconnect`. -/
def handleClose (s : ClientState) (code : Nat) : ClientState :=
  if code ≠ 1000 ∧ s.reconnectAttempts < s.maxReconnectAttempts then
    attemptReconnect { s with isConnected := false, isConnecting := false }
  else
    { s with
      isConnected := false
      isConnecting := false
      notifications := s.notifications + 1 }

/-- A pending reconnect timer fires and the scheduled `connect()` call
runs to settlement.  The guard at the top of `connect()` returns at once
when already connecting or connected.  On success (`ok = true`) the
promise's `onopen` closure clears `isConnecting`, sets `isConnected` and
resets the counter; on failure the `catch` in `connect()` clears
`isConnecting` and the `.catch` attached in `attemptReconnect` calls
`attemptReconnect` again.  The close event of a failed socket is delivered
separately to `handleClose`. -/
def timerFire (s : ClientState) (ok : Bool) : ClientState :=
  if s.pendingTimers = 0 then s
  else if s.isConnecting || s.isConnected then
    { s with pendingTimers := s.pendingTimers - 1 }
  else if ok then
    { s with
      pendingTimers := s.pendingTimers - 1
      isConnecting := false
      isConnected := true
      reconnectAttempts := 0 }
  else attemptReconnect { s with pendingTimers := s.pendingTimers - 1 }

/-- An event delivered to the client by its environment: a transport close
event (routed to `handleClose`), or the firing of a scheduled reconnect
timer whose `connect()` call succeeds iff `ok`. -/
inductive ClientEvent
  | closeEvt (code : Nat)
  | timer (ok : Bool)
  deriving DecidableEq

/-- One environment event processed by the client. -/
def clientStep (s : ClientState) : ClientEvent → ClientState
  | .closeEvt code => handleClose s code
  | .timer ok => timerFire s ok

/-- A whole trace of environment events in delivery order. -/
def clientRun (s : ClientState) : List ClientEvent → ClientState
  | [] => s
  | e :: tr => clientRun (clientStep s e) tr

/-- The client state right after a successful initial `connect()` for
options `opts`: both flags settled by the promise's `onopen` closure, the
counter at `0`, the cap from `options.maxReconnectAttempts || 10`. -/
def connectedState (opts : KeyboardBridgeOptions) : ClientState :=
  { isConnecting := false
    isConnected := true
    reconnectAttempts := 0
    maxReconnectAttempts := orDefault opts.maxReconnectAttempts 10
    pendingTimers := 0
    notifications := 0 }

/-- The observable state of a `KeyboardBridge` for outbound delivery: the
transport's connected flag and the events handed to `ws.send` in order.
The bridge has no queue or buffer field. -/
structure BridgeState where
  wsConnected : Bool
  sent : List Emitted
  deriving DecidableEq

/-- A signal arriving at the bridge: a captured event handed to
`handleKeyboardEvent` / `handleCompositionEvent`, or a change of the
transport's connected flag. -/
inductive BridgeSignal
  | keyEvt (e : KeyboardEvent)
  | compEvt (e : CompositionEvent)
  | wsOpen
  | wsClose
  deriving DecidableEq

/-- `KeyboardBridge.handleKeyboardEvent` / `handleCompositionEvent`: when
`wsClient.connected` is false the handler returns immediately — the event
is stored nowhere; when connected, the event is sent. -/
def bridgeStep (s : BridgeState) : BridgeSignal → BridgeState
  | .keyEvt e =>
      if s.wsConnected then { s with sent := s.sent ++ [Emitted.key e] }
      else s
  | .compEvt e =>
      if s.wsConnected then { s with sent := s.sent ++ [Emitted.comp e] }
      else s
  | .wsOpen => { s with wsConnected := true }
  | .wsClose => { s with wsConnected := false }

/-- A trace of bridge signals in arrival order. -/
def bridgeRun (s : BridgeState) : List BridgeSignal → BridgeState
  | [] => s
  | sig :: tr => bridgeRun (bridgeStep s sig) tr

/-- Specification-side description of delivery: the events of a trace that
arrive while the transport is connected, in order (`c` is the connected
flag at the head of the trace). -/
def connectedSends (c : Bool) : List BridgeSignal → List Emitted
  | [] => []
  | .keyEvt e :: tr => (if c then [Emitted.key e] else []) ++ connectedSends c tr
  | .compEvt e :: tr => (if c then [Emitted.comp e] else []) ++ connectedSends c tr
  | .wsOpen :: tr => connectedSends true tr
  | .wsClose :: tr => connectedSends false tr

/-- The outbound protocol message kinds relevant to the connect
re-announcement. -/
inductive MsgType
  | keymapMsg
  | connectMsg
  deriving DecidableEq

/-- `KeyboardBridge.handleConnect`: sends the keymap message and then the
connect/identity message. -/
def handleConnectSends : List MsgType := [MsgType.keymapMsg, MsgType.connectMsg]

/-- The two functions assigned to the socket's `onopen` property inside
`connect()`: the bound `handleOpen` method, and the resolver closure
created by the promise executor. -/
inductive OnOpenHandler
  | handleOpenH
  | resolverH
  deriving DecidableEq

/-- The assignments to `ws.onopen` executed, in order, by the synchronous
body of `connect()`: first `this.handleOpen.bind(this)`, then the promise
executor's closure.  A property assignment replaces the previous handler,
and the open event cannot be delivered before the synchronous body
finishes, so the handler in force at open time is the last assignment. -/
def onopenAssignments : List OnOpenHandler :=
  [OnOpenHandler.handleOpenH, OnOpenHandler.resolverH]

/-- The `onopen` handler in force when the open event is delivered. -/
def onopenAtOpenTime : Option OnOpenHandler := onopenAssignments.getLast?

/-- Messages sent by an `onopen` handler when it runs: `handleOpen` sets
the connected flags and invokes `onConnect`, which is
`KeyboardBridge.handleConnect`; the resolver closure sets the flags and
resolves the promise, invoking no callback and sending nothing. -/
def openDispatchSends : OnOpenHandler → List MsgType
  | .handleOpenH => handleConnectSends
  | .resolverH => []

/-- The outbound messages produced by the transition into the connected
state, i.e. by delivery of the open event to the handler then in force. -/
def messagesOnEnterConnected : List MsgType :=
  match onopenAtOpenTime with
  | some h => openDispatchSends h
  | none => []

/-- A DOM listener registry: the listeners attached to the capture target
(event name paired with the identity of the listener function), and a
counter supplying fresh function identities — each evaluation of
`fn.bind(this)` in the source creates a new function object. -/
structure DomRegistry where
  listeners : List (String × Nat)
  nextId : Nat
  deriving DecidableEq

/-- `target.addEventListener(ev, fn, true)`: attaches `fn`. -/
def addEventListener (d : DomRegistry) (ev : String) (fn : Nat) :
    DomRegistry :=
  { d with listeners := d.listeners ++ [(ev, fn)] }

/-- `target.removeEventListener(ev, fn, true)`: detaches only listeners
whose function identity equals `fn` exactly. -/
def removeEventListener (d : DomRegistry) (ev : String) (fn : Nat) :
    DomRegistry :=
  { d with listeners := d.listeners.filter (fun p => !(p.1 == ev && p.2 == fn)) }

/-- One evaluation of `method.bind(this)`: a fresh function object. -/
def bindFresh (d : DomRegistry) : Nat × DomRegistry :=
  (d.nextId, { d with nextId := d.nextId + 1 })

/-- The lifecycle state of a `KeyboardEventCapture`: the registry of the
target it listens on and its `isCapturing` flag. -/
structure CaptureLifecycle where
  dom : DomRegistry
  isCapturing : Bool
  deriving DecidableEq

/-- `KeyboardEventCapture.start` with `captureComposition` enabled:
returns at once when already capturing, otherwise registers a
freshly-bound handler for each of the five events and sets the flag. -/
def captureStart (c : CaptureLifecycle) : CaptureLifecycle :=
  if c.isCapturing then c
  else
    let r1 := bindFresh c.dom
    let d1 := addEventListener r1.2 "keydown" r1.1
    let r2 := bindFresh d1
    let d2 := addEventListener r2.2 "keyup" r2.1
    let r3 := bindFresh d2
    let d3 := addEventListener r3.2 "compositionstart" r3.1
    let r4 := bindFresh d3
    let d4 := addEventListener r4.2 "compositionupdate" r4.1
    let r5 := bindFresh d4
    let d5 := addEventListener r5.2 "compositionend" r5.1
    { dom := d5, isCapturing := true }

/-- `KeyboardEventCapture.stop` with `captureComposition` enabled: returns
at once when not capturing, otherwise calls `removeEventListener` for each
of the five events, passing a *newly* bound copy of the handler method,
and clears the flag. -/
def captureStop (c : CaptureLifecycle) : CaptureLifecycle :=
  if !c.isCapturing then c
  else
    let r1 := bindFresh c.dom
    let d1 := removeEventListener r1.2 "keydown" r1.1
    let r2 := bindFresh d1
    let d2 := removeEventListener r2.2 "keyup" r2.1
    let r3 := bindFresh d2
    let d3 := removeEventListener r3.2 "compositionstart" r3.1
    let r4 := bindFresh d3
    let d4 := removeEventListener r4.2 "compositionupdate" r4.1
    let r5 := bindFresh d4
    let d5 := removeEventListener r5.2 "compositionend" r5.1
    { dom := d5, isCapturing := false }

/-- The number of attached listeners an arriving event of type `ev` is
dispatched to (`handleKeyDown` and its siblings contain no `isCapturing`
guard, so every still-attached listener delivers the signal to the
capture's callback). -/
def deliveredCount (d : DomRegistry) (ev : String) : Nat :=
  (d.listeners.filter (fun p => p.1 == ev)).length

/-- An empty capture target, before `start()` has ever run. -/
def freshDom : DomRegistry := ⟨[], 0⟩

/-- An action emitted to the virtual device backend. -/
inductive DeviceAction
  | press (key : String)
  | release (key : String)
  | releaseDevice
  deriving DecidableEq

/-- Modelled from the spec: the server-side Device Emission Engine (the
Python daemon) is not among the repository sources — only its README and
the TypeScript client are present.  Per the data model, a server session
keeps the set of currently-pressed device key identities. -/
structure ServerSession where
  pressed : List String
  deriving DecidableEq

/-- Modelled from the spec: "On session termination for any reason: emit a
release for every keyIdentity remaining in the pressed-set, then release
device ownership" (§4.5).  Termination — graceful or abnormal — empties
the pressed-set and emits a release per pressed key followed by the
device-ownership release. -/
def terminateSession (s : ServerSession) : ServerSession × List DeviceAction :=
  ({ pressed := [] },
    s.pressed.map DeviceAction.release ++ [DeviceAction.releaseDevice])

/-! ### Helper lemmas -/

lemma getLast_append_singleton {α : Type} (l : List α) (a : α) :
    (l ++ [a]).getLast? = some a := by
  induction l with
  | nil => rfl
  | cons x xs ih =>
      rw [List.cons_append, List.getLast?_cons]
      simp [ih]

lemma dropLast_append_singleton {α : Type} (l : List α) (a : α) :
    (l ++ [a]).dropLast = l := by
  induction l with
  | nil => rfl
  | cons x xs ih =>
      cases xs with
      | nil => rfl
      | cons y ys =>
          simp only [List.cons_append] at ih ⊢
          show x :: (y :: (ys ++ [a])).dropLast = x :: y :: ys
          rw [ih]

lemma take_length_append {α : Type} (l r : List α) :
    (l ++ r).take l.length = l := by
  induction l with
  | nil => rfl
  | cons x xs ih => simp [ih]

/-- A run of the capture decomposes into the tracker state after the trace
and the previously delivered events followed by the trace's output. -/
lemma captureRun_eq (opts : EventCaptureOptions) :
    ∀ (tr : List CaptureSignal) (st : ModifierState) (acc : List Emitted),
      captureRun opts ⟨st, acc⟩ tr
        = ⟨runMod opts st tr, acc ++ runOut opts st tr⟩ := by
  intro tr
  induction tr with
  | nil => intro st acc; simp [captureRun, runMod, runOut]
  | cons sig tr ih =>
      intro st acc
      simp [captureRun, runMod, runOut, captureStep, ih]

lemma runMod_append (opts : EventCaptureOptions) :
    ∀ (t u : List CaptureSignal) (st : ModifierState),
      runMod opts st (t ++ u) = runMod opts (runMod opts st t) u := by
  intro t
  induction t with
  | nil => intro u st; rfl
  | cons sig t ih => intro u st; simp [runMod, ih]

lemma runOut_append (opts : EventCaptureOptions) :
    ∀ (t u : List CaptureSignal) (st : ModifierState),
      runOut opts st (t ++ u)
        = runOut opts st t ++ runOut opts (runMod opts st t) u := by
  intro t
  induction t with
  | nil => intro u st; rfl
  | cons sig t ih => intro u st; simp [runOut, runMod, ih]

lemma runOut_length (opts : EventCaptureOptions)
    (h : opts.captureComposition = true) :
    ∀ (tr : List CaptureSignal) (st : ModifierState),
      (runOut opts st tr).length = signalCount tr := by
  intro tr
  induction tr with
  | nil => intro st; rfl
  | cons sig tr ih =>
      intro st
      cases sig <;> simp [runOut, stepOut, signalCount, h, ih]

/-- The invariant carried by every reachable client state: the cap is the
constant `m`, the retry counter never passes it, and a connected client has
a freshly reset counter. -/
def ClientInv (m : Nat) (s : ClientState) : Prop :=
  s.maxReconnectAttempts = m ∧ s.reconnectAttempts ≤ m ∧
    (s.isConnected = true → s.reconnectAttempts = 0)

lemma attemptReconnect_inv (m : Nat) (s : ClientState) (h : ClientInv m s)
    (hc : s.isConnected = false) : ClientInv m (attemptReconnect s) := by
  obtain ⟨h1, h2, h3⟩ := h
  unfold attemptReconnect
  split
  · exact ⟨h1, h2, h3⟩
  · rename_i hlt
    refine ⟨h1, ?_, ?_⟩
    · show s.reconnectAttempts + 1 ≤ m
      omega
    · intro hco
      have hco' : s.isConnected = true := hco
      rw [hc] at hco'
      cases hco'

lemma handleClose_inv (m : Nat) (s : ClientState) (code : Nat)
    (h : ClientInv m s) : ClientInv m (handleClose s code) := by
  obtain ⟨h1, h2, h3⟩ := h
  unfold handleClose
  split
  · exact attemptReconnect_inv m _ ⟨h1, h2, fun hco => by cases hco⟩ rfl
  · exact ⟨h1, h2, fun hco => by cases hco⟩

lemma timerFire_inv (m : Nat) (s : ClientState) (ok : Bool)
    (h : ClientInv m s) : ClientInv m (timerFire s ok) := by
  obtain ⟨h1, h2, h3⟩ := h
  unfold timerFire
  split
  · exact ⟨h1, h2, h3⟩
  · split
    · exact ⟨h1, h2, h3⟩
    · split
      · exact ⟨h1, Nat.zero_le _, fun _ => rfl⟩
      · rename_i hp hguard hok
        have hnc : s.isConnected = false := by
          cases hcon : s.isConnected
          · rfl
          · exact absurd (by simp [hcon]) hguard
        exact attemptReconnect_inv m _
          ⟨h1, h2, fun hco => by
            have hco' : s.isConnected = true := hco
            rw [hnc] at hco'
            cases hco'⟩
          hnc

lemma clientStep_inv (m : Nat) (s : ClientState) (e : ClientEvent)
    (h : ClientInv m s) : ClientInv m (clientStep s e) := by
  cases e with
  | closeEvt code => exact handleClose_inv m s code h
  | timer ok => exact timerFire_inv m s ok h

lemma clientRun_inv (m : Nat) (tr : List ClientEvent) :
    ∀ (s : ClientState), ClientInv m s → ClientInv m (clientRun s tr) := by
  induction tr with
  | nil => intro s h; exact h
  | cons e tr ih => intro s h; exact ih _ (clientStep_inv m s e h)

lemma connectedState_inv (opts : KeyboardBridgeOptions) :
    ClientInv (orDefault opts.maxReconnectAttempts 10) (connectedState opts) :=
  ⟨rfl, Nat.zero_le _, fun _ => rfl⟩

lemma orDefault_pos (o : Option Nat) (d : Nat) (h : 0 < d) :
    0 < orDefault o d := by
  cases o with
  | none => exact h
  | some n => cases n with
    | zero => exact h
    | succ k => exact Nat.succ_pos k

/-! ### Claim theorems -/

/-- C1: for every session and every termination of it (graceful or
abnormal), after termination the session's pressed-set is empty and a
device release action has been emitted for every keyIdentity that was in
the pressed-set at termination time, before the device is released
(the device-ownership release is the final action and every key release
occurs among the actions preceding it). -/
theorem c1_termination_releases_pressed (s : ServerSession) :
    (terminateSession s).1.pressed = [] ∧
    (terminateSession s).2.getLast? = some DeviceAction.releaseDevice ∧
    ∀ k, k ∈ s.pressed →
      DeviceAction.release k ∈ (terminateSession s).2.dropLast := by
  refine ⟨rfl, getLast_append_singleton _ _, ?_⟩
  intro k hk
  have h2 : (terminateSession s).2.dropLast
      = s.pressed.map DeviceAction.release :=
    dropLast_append_singleton _ _
  rw [h2]
  exact List.mem_map_of_mem _ hk

/-- C1 witness: a session terminated while KEY_A is pressed. -/
theorem c1_termination_releases_pressed_witness :
    (terminateSession ⟨["KEY_A"]⟩).1.pressed = [] ∧
    (terminateSession ⟨["KEY_A"]⟩).2.getLast? = some DeviceAction.releaseDevice ∧
    DeviceAction.release "KEY_A" ∈ (terminateSession ⟨["KEY_A"]⟩).2.dropLast := by
  have h := c1_termination_releases_pressed ⟨["KEY_A"]⟩
  exact ⟨h.1, h.2.1, h.2.2 "KEY_A" (by simp)⟩

/-- C2: the claim fails on the code.  On every transition into the
connected state the handler in force for the open event is the promise
executor's resolver (it overwrote the `handleOpen` assignment inside the
synchronous body of `connect()`), so no outbound message at all is sent —
in particular not the keymap and connect messages that the never-invoked
`onConnect`/`handleConnect` path would send. -/
theorem c2_enter_connected_sends_nothing :
    onopenAtOpenTime = some OnOpenHandler.resolverH ∧
    messagesOnEnterConnected = [] ∧
    openDispatchSends OnOpenHandler.handleOpenH
      = [MsgType.keymapMsg, MsgType.connectMsg] :=
  ⟨rfl, rfl, rfl⟩

/-- The raw signal used for C4: keyCode 65, key "a", no flags. -/
def rawSigA : RawKeyboardSignal :=
  ⟨65, "a", false, false, false, false, 0, false, none, none, none⟩

/-- C4 fails as stated: two raw signals handled at the same clock reading
produce events whose only per-event numeric tag, the timestamp, does not
strictly increase; the `KeyboardEvent` record carries no sequence-number
field at all. -/
theorem c4_counterexample :
    ((captureRun defaultCaptureOptions ⟨initialModifierState, []⟩
        [CaptureSignal.keydown rawSigA 5,
         CaptureSignal.keydown rawSigA 5]).emitted.map emittedTimestamp)
      = [5, 5] ∧ ¬ ((5 : Nat) < 5) := by
  decide

/-- C4 (amended): exactly one `NormalizedKeyEvent` or `CompositionEvent`
is emitted per raw signal consumed by the capture (composition capture
enabled), and each emitted event is tagged with the clock reading at
emission time — there is no per-session sequence number, and consecutive
timestamps need not strictly increase. -/
theorem c4_amended_exactly_one_event (opts : EventCaptureOptions)
    (st : ModifierState) (tr : List CaptureSignal)
    (h : opts.captureComposition = true) :
    (captureRun opts ⟨st, []⟩ tr).emitted.length = signalCount tr ∧
    (∀ e now, (handleKeyDown opts st e now).2.timestamp = now) ∧
    (∀ e now, (handleKeyUp opts st e now).2.timestamp = now) ∧
    (∀ data now, (handleComposition st data now).timestamp = now) := by
  refine ⟨?_, fun _ _ => rfl, fun _ _ => rfl, fun _ _ => rfl⟩
  rw [captureRun_eq opts tr st []]
  show (runOut opts st tr).length = signalCount tr
  exact runOut_length opts h tr st

/-- C4 amended witness: a keydown and a composition end emit two events. -/
theorem c4_amended_exactly_one_event_witness :
    (captureRun defaultCaptureOptions ⟨initialModifierState, []⟩
        [CaptureSignal.keydown rawSigA 5,
         CaptureSignal.compEnd "abc" 6]).emitted.length
      = signalCount [CaptureSignal.keydown rawSigA 5,
         CaptureSignal.compEnd "abc" 6] ∧
    (handleKeyDown defaultCaptureOptions initialModifierState rawSigA 7).2.timestamp = 7 := by
  have h := c4_amended_exactly_one_event defaultCaptureOptions
    initialModifierState
    [CaptureSignal.keydown rawSigA 5, CaptureSignal.compEnd "abc" 6] rfl
  exact ⟨h.1, h.2.1 rawSigA 7⟩

/-- C5: events generated while the transport is not connected are dropped.
Over any trace, the bridge's outbound list is exactly the events that
arrived while connected, in arrival order: nothing is queued while
disconnected and nothing generated while disconnected is delivered after a
later reconnection. -/
theorem c5_disconnected_events_never_delivered :
    ∀ (tr : List BridgeSignal) (c : Bool) (acc : List Emitted),
      (bridgeRun ⟨c, acc⟩ tr).sent = acc ++ connectedSends c tr := by
  intro tr
  induction tr with
  | nil => intro c acc; simp [bridgeRun, connectedSends]
  | cons sig tr ih =>
      intro c acc
      cases sig with
      | keyEvt e =>
          cases c <;>
            simp [bridgeRun, bridgeStep, connectedSends, ih, List.append_assoc]
      | compEvt e =>
          cases c <;>
            simp [bridgeRun, bridgeStep, connectedSends, ih, List.append_assoc]
      | wsOpen => simp [bridgeRun, bridgeStep, connectedSends, ih]
      | wsClose => simp [bridgeRun, bridgeStep, connectedSends, ih]

/-- C8: for every raw signal processed by the modifier tracker, altGr is
set iff the signal's alt flag is set and its location discriminator is the
right-hand value 2, and each lock flag equals the host's modifier-state
query result when available and `false` when the query is unavailable. -/
theorem c8_modifier_state_derivation (opts : EventCaptureOptions)
    (st : ModifierState) (e : RawKeyboardSignal)
    (h : opts.captureModifiers = true) :
    ((updateModifierState opts st e).altGr = true ↔
        e.altKey = true ∧ e.location = 2) ∧
    (∀ b, e.capsLockQuery = some b →
      (updateModifierState opts st e).capsLock = b) ∧
    (e.capsLockQuery = none → (updateModifierState opts st e).capsLock = false) ∧
    (∀ b, e.numLockQuery = some b →
      (updateModifierState opts st e).numLock = b) ∧
    (e.numLockQuery = none → (updateModifierState opts st e).numLock = false) ∧
    (∀ b, e.scrollLockQuery = some b →
      (updateModifierState opts st e).scrollLock = b) ∧
    (e.scrollLockQuery = none → (updateModifierState opts st e).scrollLock = false) := by
  unfold updateModifierState
  rw [h]
  simp only [Bool.not_true, Bool.false_eq_true, if_false]
  refine ⟨?_, ?_, ?_, ?_, ?_, ?_, ?_⟩
  · simp [Bool.and_eq_true]
  · intro b hb; simp [lockQueryOrFalse, hb]
  · intro hb; simp [lockQueryOrFalse, hb]
  · intro b hb; simp [lockQueryOrFalse, hb]
  · intro hb; simp [lockQueryOrFalse, hb]
  · intro b hb; simp [lockQueryOrFalse, hb]
  · intro hb; simp [lockQueryOrFalse, hb]

/-- The raw signal used for the C8 witness: right alt pressed (location 2),
caps-lock query available and true, num-lock query available and false,
scroll-lock query unavailable. -/
def rawSigAltGr : RawKeyboardSignal :=
  ⟨18, "AltGraph", false, true, false, false, 2, false, some true, some false, none⟩

/-- C8 witness at a concrete right-alt signal. -/
theorem c8_modifier_state_derivation_witness :
    ((updateModifierState defaultCaptureOptions initialModifierState rawSigAltGr).altGr = true ↔
        rawSigAltGr.altKey = true ∧ rawSigAltGr.location = 2) ∧
    (updateModifierState defaultCaptureOptions initialModifierState rawSigAltGr).capsLock = true ∧
    (updateModifierState defaultCaptureOptions initialModifierState rawSigAltGr).numLock = false ∧
    (updateModifierState defaultCaptureOptions initialModifierState rawSigAltGr).scrollLock = false := by
  have h := c8_modifier_state_derivation defaultCaptureOptions
    initialModifierState rawSigAltGr rfl
  exact ⟨h.1, h.2.1 true rfl, h.2.2.2.1 false rfl, h.2.2.2.2.2.2 rfl⟩

/-- C9: every emitted event carries a snapshot of the modifier state taken
at emission time, and later activity — further raw signals or
`resetModifierState` (any continuation trace `u`) — never changes the
events already delivered; `getModifierState` returns the tracker's current
value (a copy). -/
theorem c9_snapshot_and_frame (opts : EventCaptureOptions)
    (st : ModifierState) (acc : List Emitted) (t u : List CaptureSignal) :
    (captureRun opts ⟨st, acc⟩ (t ++ u)).emitted.take
        ((captureRun opts ⟨st, acc⟩ t).emitted.length)
      = (captureRun opts ⟨st, acc⟩ t).emitted ∧
    (∀ e now, (handleKeyDown opts st e now).2.modifiers
        = (handleKeyDown opts st e now).1) ∧
    (∀ e now, (handleKeyUp opts st e now).2.modifiers
        = (handleKeyUp opts st e now).1) ∧
    getModifierState ⟨st, acc⟩ = st := by
  refine ⟨?_, fun _ _ => rfl, fun _ _ => rfl, rfl⟩
  rw [captureRun_eq opts (t ++ u) st acc, captureRun_eq opts t st acc]
  show (acc ++ runOut opts st (t ++ u)).take (acc ++ runOut opts st t).length
      = acc ++ runOut opts st t
  rw [runOut_append opts t u st, ← List.append_assoc]
  exact take_length_append _ _

/-- C10: the claim fails on the code.  After `start()` then `stop()`, the
keydown listener registered by `start()` is still attached, because
`stop()` hands `removeEventListener` a freshly created `.bind(this)`
function that matches no registered listener; an arriving keydown is
therefore still dispatched (once) to `handleKeyDown`, which delivers it to
the `onKeyboardEvent` callback unconditionally. -/
theorem c10_stop_leaves_listener_attached :
    deliveredCount (captureStop (captureStart ⟨freshDom, false⟩)).dom "keydown" = 1 ∧
    (captureStop (captureStart ⟨freshDom, false⟩)).isCapturing = false := by
  decide

/-- Options with attempt cap 2, used for C3. -/
def c3Options : KeyboardBridgeOptions := ⟨"ws://localhost:8080", none, some 2, none⟩

/-- The C3 trace: the established connection drops abnormally; each of the
two scheduled reconnection attempts fails (its `connect()` promise rejects,
then its socket's close event arrives). -/
def c3Trace : List ClientEvent :=
  [ClientEvent.closeEvt 1006, ClientEvent.timer false,
   ClientEvent.closeEvt 1006, ClientEvent.timer false,
   ClientEvent.closeEvt 1006]

/-- C3 fails as stated: with cap 2 the counter respects the cap, but after
exhaustion the caller receives two disconnect notifications rather than
exactly one — every failed attempt's socket fires its own close event, and
`handleClose` invokes `onDisconnect` each time the counter sits at the
cap. -/
theorem c3_counterexample :
    (clientRun (connectedState c3Options) c3Trace).notifications = 2 ∧
    (clientRun (connectedState c3Options) c3Trace).reconnectAttempts = 2 ∧
    (connectedState c3Options).maxReconnectAttempts = 2 ∧
    (clientRun (connectedState c3Options) c3Trace).isConnected = false := by
  decide

/-- C3 (amended): the retry counter — hence the number of scheduled
reconnection attempts per disconnection streak — never exceeds the
configured cap N (default 10, with the falsy 0 treated as unset); once the
cap is exhausted the session is left disconnected, and each abnormal
closure observed with the counter at the cap surfaces one failure
notification to the caller — at least one, but possibly more than one, in
total. -/
theorem c3_amended_cap_respected (opts : KeyboardBridgeOptions)
    (tr : List ClientEvent) (s : ClientState) (code : Nat)
    (hmax : s.maxReconnectAttempts ≤ s.reconnectAttempts)
    (_hcode : code ≠ 1000) :
    (clientRun (connectedState opts) tr).reconnectAttempts
        ≤ orDefault opts.maxReconnectAttempts 10 ∧
    (handleClose s code).notifications = s.notifications + 1 ∧
    (handleClose s code).isConnected = false ∧
    (handleClose s code).pendingTimers = s.pendingTimers := by
  have hinv := clientRun_inv (orDefault opts.maxReconnectAttempts 10) tr
    (connectedState opts) (connectedState_inv opts)
  have hcond : ¬(code ≠ 1000 ∧ s.reconnectAttempts < s.maxReconnectAttempts) := by
    intro hco
    exact absurd hco.2 (Nat.not_lt.mpr hmax)
  refine ⟨hinv.2.1, ?_⟩
  unfold handleClose
  rw [if_neg hcond]
  exact ⟨rfl, rfl, rfl⟩

/-- C3 amended witness: the cap-2 run stays at the cap, and a concrete
at-cap state notifies once more per abnormal close. -/
theorem c3_amended_cap_respected_witness :
    (clientRun (connectedState c3Options) c3Trace).reconnectAttempts
        ≤ orDefault c3Options.maxReconnectAttempts 10 ∧
    (handleClose ⟨false, false, 2, 2, 0, 1⟩ 1006).notifications = 1 + 1 ∧
    (handleClose ⟨false, false, 2, 2, 0, 1⟩ 1006).isConnected = false ∧
    (handleClose ⟨false, false, 2, 2, 0, 1⟩ 1006).pendingTimers = 0 :=
  c3_amended_cap_respected c3Options c3Trace ⟨false, false, 2, 2, 0, 1⟩ 1006
    (by decide) (by decide)

/-- Option records used for C6: every configurable field differs between
the two and from its default. -/
def c6OptionsA : KeyboardBridgeOptions := ⟨"ws://a", some 1234, some 3, some true⟩

/-- Second option record for C6. -/
def c6OptionsB : KeyboardBridgeOptions := ⟨"ws://b", some 77, some 99, some false⟩

/-- C6 fails as stated: the handshake timeout is the hard-coded literal
10000 — two option records that configure every available knob differently
still get the same 10000 timeout; no option field feeds into it. -/
theorem c6_counterexample :
    connectionTimeoutMs c6OptionsA = 10000 ∧
    connectionTimeoutMs c6OptionsB = 10000 ∧
    c6OptionsA ≠ c6OptionsB := by
  refine ⟨rfl, rfl, ?_⟩
  decide

/-- C6 (amended): `Connecting` resolves to `Connected` only if the
handshake's open event fires within the bounded timeout, whose duration is
fixed at 10000 ms (10 time-units) independently of configuration; on
timeout or transport-level error the attempt's promise rejects, and the
failed socket's close event then schedules a reconnection attempt when
attempts remain and surfaces the disconnect otherwise. -/
theorem c6_amended_fixed_timeout (opts : KeyboardBridgeOptions)
    (sig : ConnectSignal) (s : ClientState)
    (hres : connectResolves opts sig = true) :
    connectionTimeoutMs opts = 10000 ∧
    (∃ t, sig = ConnectSignal.openAt t ∧ t < 10000) ∧
    (s.reconnectAttempts < s.maxReconnectAttempts →
      (handleClose s 1006).pendingTimers = s.pendingTimers + 1) ∧
    (s.maxReconnectAttempts ≤ s.reconnectAttempts →
      (handleClose s 1006).notifications = s.notifications + 1 ∧
      (handleClose s 1006).isConnected = false) := by
  refine ⟨rfl, ?_, ?_, ?_⟩
  · cases sig with
    | openAt t =>
        refine ⟨t, rfl, ?_⟩
        have hres' : decide (t < connectionTimeoutMs opts) = true := hres
        exact of_decide_eq_true hres'
    | errorAt t => cases hres
  · intro hlt
    unfold handleClose
    rw [if_pos ⟨by decide, hlt⟩]
    show (attemptReconnect
      { s with isConnected := false, isConnecting := false }).pendingTimers
      = s.pendingTimers + 1
    unfold attemptReconnect
    split
    · rename_i hc
      have hc' : s.maxReconnectAttempts ≤ s.reconnectAttempts := hc
      omega
    · rfl
  · intro hge
    unfold handleClose
    rw [if_neg (fun hco => absurd hco.2 (Nat.not_lt.mpr hge))]
    exact ⟨rfl, rfl⟩

/-- C6 amended witness: concrete non-default options, an open event at
time 3, and a below-cap and an at-cap state. -/
theorem c6_amended_fixed_timeout_witness :
    connectionTimeoutMs c6OptionsA = 10000 ∧
    (∃ t, ConnectSignal.openAt 3 = ConnectSignal.openAt t ∧ t < 10000) ∧
    (handleClose ⟨false, false, 0, 10, 0, 0⟩ 1006).pendingTimers = 0 + 1 ∧
    (handleClose ⟨false, false, 10, 10, 0, 0⟩ 1006).notifications = 0 + 1 := by
  have h1 := c6_amended_fixed_timeout c6OptionsA (ConnectSignal.openAt 3)
    ⟨false, false, 0, 10, 0, 0⟩ (by decide)
  have h2 := c6_amended_fixed_timeout c6OptionsA (ConnectSignal.openAt 3)
    ⟨false, false, 10, 10, 0, 0⟩ (by decide)
  exact ⟨h1.1, h1.2.1, h1.2.2.1 (by decide), (h2.2.2.2 (by decide)).1⟩

/-- C7: for a transport closure observed in the connected state, the
client schedules a reconnection attempt iff the close code differs from
the protocol's normal-closure code 1000; a closure with code 1000 leaves
the session disconnected, surfaces the disconnect to the caller, and
schedules no reconnection. -/
theorem c7_reconnect_iff_abnormal_close (opts : KeyboardBridgeOptions)
    (tr : List ClientEvent) (code : Nat)
    (hconn : (clientRun (connectedState opts) tr).isConnected = true) :
    ((handleClose (clientRun (connectedState opts) tr) code).pendingTimers
        = (clientRun (connectedState opts) tr).pendingTimers + 1
      ↔ code ≠ 1000) ∧
    (code = 1000 →
      (handleClose (clientRun (connectedState opts) tr) code).isConnected = false ∧
      (handleClose (clientRun (connectedState opts) tr) code).notifications
        = (clientRun (connectedState opts) tr).notifications + 1 ∧
      (handleClose (clientRun (connectedState opts) tr) code).pendingTimers
        = (clientRun (connectedState opts) tr).pendingTimers) := by
  obtain ⟨hm, hle, hzero⟩ := clientRun_inv (orDefault opts.maxReconnectAttempts 10)
    tr (connectedState opts) (connectedState_inv opts)
  have h0 : (clientRun (connectedState opts) tr).reconnectAttempts = 0 :=
    hzero hconn
  have hpos : 0 < (clientRun (connectedState opts) tr).maxReconnectAttempts := by
    rw [hm]
    exact orDefault_pos _ _ (by decide)
  constructor
  · constructor
    · intro hpt heq
      subst heq
      unfold handleClose at hpt
      rw [if_neg (fun hco => hco.1 rfl)] at hpt
      have hpt' : (clientRun (connectedState opts) tr).pendingTimers
          = (clientRun (connectedState opts) tr).pendingTimers + 1 := hpt
      omega
    · intro hcode
      unfold handleClose
      rw [if_pos ⟨hcode, by omega⟩]
      show (attemptReconnect
        { clientRun (connectedState opts) tr with
          isConnected := false, isConnecting := false }).pendingTimers
        = (clientRun (connectedState opts) tr).pendingTimers + 1
      unfold attemptReconnect
      split
      · rename_i hc
        have hc' : (clientRun (connectedState opts) tr).maxReconnectAttempts
            ≤ (clientRun (connectedState opts) tr).reconnectAttempts := hc
        omega
      · rfl
  · intro heq
    subst heq
    unfold handleClose
    rw [if_neg (fun hco => hco.1 rfl)]
    exact ⟨rfl, rfl, rfl⟩

/-- Options used for the C7 witness. -/
def c7Options : KeyboardBridgeOptions := ⟨"ws://localhost:8080", none, none, none⟩

/-- C7 witness: the freshly connected client, close code 1006. -/
theorem c7_reconnect_iff_abnormal_close_witness :
    ((handleClose (clientRun (connectedState c7Options) []) 1006).pendingTimers
        = (clientRun (connectedState c7Options) []).pendingTimers + 1
      ↔ (1006 : Nat) ≠ 1000) ∧
    ((1006 : Nat) = 1000 →
      (handleClose (clientRun (connectedState c7Options) []) 1006).isConnected = false ∧
      (handleClose (clientRun (connectedState c7Options) []) 1006).notifications
        = (clientRun (connectedState c7Options) []).notifications + 1 ∧
      (handleClose (clientRun (connectedState c7Options) []) 1006).pendingTimers
        = (clientRun (connectedState c7Options) []).pendingTimers) :=
  c7_reconnect_iff_abnormal_close c7Options [] 1006 rfl

end KB
